import Mathlib

/-!
Shallow embedding of the restaurants CRUD service
(src/models.js and src/server.js).

The document model, its two virtual getters and the apiRepr instance
method are translated from src/models.js; the five route handlers are
translated from src/server.js.  The backing store operations
(create / find / findById / findByIdAndUpdate / findByIdAndRemove) are
modelled with their documented Mongoose semantics, which the source
relies on:
  * `required: true` String paths reject empty strings at creation
    (SchemaString.checkRequired demands a nonempty string), so
    `Model.create` with an empty required field rejects and the
    handler falls into its catch branch;
  * `findByIdAndUpdate(id, update)` defaults to `new: false` and hands
    the pre-update document to the `.then` callback, while the store
    itself receives the `$set`;
  * array paths default to `[]` and unset String paths read back as
    JS `undefined`.
JavaScript semantics visible in the source are embedded explicitly:
template literals render `undefined` as the string "undefined",
`Array.prototype.sort` sorts in place (so the `grade` virtual mutates
`this.grades`), and `String.prototype.trim` strips surrounding
whitespace.
-/

/-- Rendering of a possibly-undefined JS string value inside a template
literal: an absent value renders as the string "undefined". -/
def jsShow : Option String → String
  | some s => s
  | none => "undefined"

/-- Character-level trim: drop whitespace from both ends.  Models
`String.prototype.trim` on the character list of the string (defined
structurally so that it evaluates inside the kernel). -/
def trimChars (l : List Char) : List Char :=
  ((l.dropWhile Char.isWhitespace).reverse.dropWhile Char.isWhitespace).reverse

/-- `String.prototype.trim`. -/
def jsTrim (s : String) : String :=
  String.mk (trimChars s.data)

/-- One entry of the `grades` array (models.js lines 21-25). -/
structure GradeEntry where
  date : Int
  grade : String
  score : Int
deriving DecidableEq

/-- The nested `address` path (models.js lines 8-19).  `building`,
`street` and `zipcode` are String paths with no default, so an unset
path reads back as JS `undefined`, modelled by `none`; `coord` is an
array of strings and defaults to `[]`. -/
structure Address where
  building : Option String
  coord : List String
  street : Option String
  zipcode : Option String
deriving DecidableEq

/-- The value an unset `address` path reads back as. -/
def Address.unset : Address :=
  { building := none, coord := [], street := none, zipcode := none }

/-- A stored restaurant document (models.js lines 4-26).  `_id` is the
store-assigned identifier. -/
structure Restaurant where
  _id : String
  name : String
  borough : String
  cuisine : String
  address : Address
  grades : List GradeEntry
deriving DecidableEq

/-- Stable insertion (descending by `date`) of a grade entry into an
already sorted list: the entry goes in front of the first element whose
date is not larger, so among equal dates earlier entries stay first.
Realises the comparator `(a, b) => b.date - a.date` of models.js
line 35 under a stable in-place sort. -/
def insertGradeDesc (e : GradeEntry) : List GradeEntry → List GradeEntry
  | [] => [e]
  | x :: xs => if e.date < x.date then x :: insertGradeDesc e xs else e :: x :: xs

/-- `this.grades.sort((a, b) => b.date - a.date)`: the grades array
sorted descending by date. -/
def sortGradesDesc (gs : List GradeEntry) : List GradeEntry :=
  gs.foldr insertGradeDesc []

/-- The `addressString` virtual getter (models.js lines 30-31):
the template literal renders the two possibly-undefined paths and the
result is trimmed. -/
def Restaurant.addressString (r : Restaurant) : String :=
  jsTrim (jsShow r.address.building ++ " " ++ jsShow r.address.street)

/-- The `grade` virtual getter (models.js lines 34-37).
`Array.prototype.sort` sorts in place, so the getter both returns a
value and leaves `this.grades` sorted descending by date; `[0]` of an
empty array is `undefined`, and the `|| \x7b\x7d` fallback makes
`.grade` of that `undefined` rather than an error.  The first component
is the returned value, the second the document after the getter ran. -/
def Restaurant.grade (r : Restaurant) : Option String × Restaurant :=
  let sorted := sortGradesDesc r.grades
  ((sorted.head?).map GradeEntry.grade, { r with grades := sorted })

/-- The public representation returned by `apiRepr`
(models.js lines 44-51): exactly the six fields id, name, cuisine,
borough, grade, address. -/
structure ApiRepr where
  id : String
  name : String
  cuisine : String
  borough : String
  grade : Option String
  address : String
deriving DecidableEq

/-- The `apiRepr` instance method (models.js lines 42-52).  Reading
`this.grade` runs the `grade` getter, so projecting a document also
sorts its in-memory `grades` array; the second component is the
document after projection. -/
def Restaurant.apiRepr (r : Restaurant) : ApiRepr × Restaurant :=
  let g := r.grade
  ({ id := r._id, name := r.name, cuisine := r.cuisine, borough := r.borough,
     grade := g.1, address := r.addressString }, g.2)

/-- The backing store: the Restaurant collection plus a counter from
which fresh identifiers are minted. -/
structure DB where
  docs : List Restaurant
  nextId : Nat
deriving DecidableEq

/-- The identifier the store assigns to the next created document. -/
def DB.freshId (db : DB) : String := toString db.nextId

/-- `Restaurant.create` (used by server.js lines 81-87): validates the
three `required: true` String paths (Mongoose rejects an empty string
for a required String path), then stores a fresh document.  An `Except`
error is the rejected promise the handler catches. -/
def Restaurant.create (name borough cuisine : String) (grades : List GradeEntry)
    (address : Address) (db : DB) : Except String (Restaurant × DB) :=
  if name = "" then .error "ValidationError: Path name is required."
  else if borough = "" then .error "ValidationError: Path borough is required."
  else if cuisine = "" then .error "ValidationError: Path cuisine is required."
  else
    let doc : Restaurant :=
      { _id := db.freshId, name := name, borough := borough, cuisine := cuisine,
        address := address, grades := grades }
    .ok (doc, { docs := db.docs ++ [doc], nextId := db.nextId + 1 })

/-- `Restaurant.findById` (server.js line 56): look the document up by
its `_id`. -/
def Restaurant.findById (i : String) (db : DB) : Option Restaurant :=
  db.docs.find? (fun d => d._id == i)

/-- The partial-update set `toUpdate` built by the put handler:
each updateable field is present iff its key was in the body. -/
structure ToUpdate where
  name : Option String
  borough : Option String
  cuisine : Option String
  address : Option Address
deriving DecidableEq

/-- `$set` of a partial-update set on one document: fields present in
the set are overwritten, all other fields are untouched. -/
def applySet (u : ToUpdate) (d : Restaurant) : Restaurant :=
  { d with
    name := u.name.getD d.name,
    borough := u.borough.getD d.borough,
    cuisine := u.cuisine.getD d.cuisine,
    address := u.address.getD d.address }

/-- `Restaurant.findByIdAndUpdate(id, \x7b$set: u\x7d)` (server.js
line 121) with Mongoose defaults: the matching document receives the
`$set` in the store, and the value handed to `.then` is the document as
it was BEFORE the update (`new` defaults to false). -/
def Restaurant.findByIdAndUpdate (i : String) (u : ToUpdate) (db : DB) :
    Option Restaurant × DB :=
  match db.docs.find? (fun d => d._id == i) with
  | none => (none, db)
  | some d =>
    (some d,
     { docs := db.docs.map (fun x => if x._id == i then applySet u x else x),
       nextId := db.nextId })

/-- `Restaurant.findByIdAndRemove` (server.js line 129): remove the
matching document, if any, returning it. -/
def Restaurant.findByIdAndRemove (i : String) (db : DB) : Option Restaurant × DB :=
  (db.docs.find? (fun d => d._id == i),
   { docs := db.docs.eraseP (fun d => d._id == i), nextId := db.nextId })

/-- The body of an HTTP response as the handlers produce it.  Record
data only ever appears as an `ApiRepr` (single, or under the
`restaurants` key of the list response); the error branches send either
a JSON message object or, for the create validation, plain text. -/
inductive RespBody where
  | restaurants (rs : List ApiRepr)
  | single (r : ApiRepr)
  | message (s : String)
  | text (s : String)
  | empty
deriving DecidableEq

/-- An HTTP response: status code and body. -/
structure Response where
  status : Nat
  body : RespBody
deriving DecidableEq

/-- server.js line 20. -/
def queryableFields : List String := ["cuisine", "borough"]

/-- The `filter` object the list handler builds (server.js lines
21-26): iterate over the query parameters and keep exactly those whose
key is in `queryableFields`. -/
def buildFilter (query : List (String × String)) : List (String × String) :=
  query.foldl (fun f p => if queryableFields.contains p.1 then f ++ [p] else f) []

/-- Exact-match semantics of a store filter object against one
document: every key/value pair of the filter must equal the
corresponding document field. -/
def matchesFilter (f : List (String × String)) (d : Restaurant) : Bool :=
  f.all (fun p =>
    if p.1 = "cuisine" then d.cuisine == p.2
    else if p.1 = "borough" then d.borough == p.2
    else true)

/-- `GET /restaurants` (server.js lines 17-50): build the filter from
the recognized query parameters, fetch at most 10 matching documents,
project each through `apiRepr` and answer 200.  The in-place grades
sort of `apiRepr` mutates only the fetched in-memory copies, so the
store is unchanged. -/
def listHandler (query : List (String × String)) (db : DB) : Response × DB :=
  let results := (db.docs.filter (matchesFilter (buildFilter query))).take 10
  ({ status := 200,
     body := .restaurants (results.map (fun d => (d.apiRepr).1)) }, db)

/-- `GET /restaurants/:id` (server.js lines 53-66): fetch by id and
project through `apiRepr`.  When no document matches, `findById`
resolves with `null`, `null.apiRepr()` raises, and the catch branch
answers 500 with the generic message. -/
def getByIdHandler (i : String) (db : DB) : Response × DB :=
  match Restaurant.findById i db with
  | some d => ({ status := 200, body := .single (d.apiRepr).1 }, db)
  | none => ({ status := 500, body := .message "Internal server error" }, db)

/-- A parsed create request body: `some` means the key is present in
the JSON object (possibly with an empty-string value), `none` that it
is absent. -/
structure CreateBody where
  name : Option String
  borough : Option String
  cuisine : Option String
  grades : Option (List GradeEntry)
  address : Option Address
deriving DecidableEq

/-- server.js line 71. -/
def requiredFields : List String := ["name", "borough", "cuisine"]

/-- `field in req.body` for the three required keys. -/
def CreateBody.hasField (b : CreateBody) : String → Bool
  | "name" => b.name.isSome
  | "borough" => b.borough.isSome
  | "cuisine" => b.cuisine.isSome
  | _ => false

/-- The validation loop of the create handler (server.js lines 72-79):
the first required field missing from the body, in the fixed order
name, borough, cuisine; the loop returns at the first failure. -/
def firstMissing (b : CreateBody) : Option String :=
  requiredFields.find? (fun f => ! b.hasField f)

/-- `POST /restaurants` (server.js lines 69-94): reject with 400 and a
plain-text message at the first missing required key; otherwise create
the document from name, borough, cuisine, grades, address (the two
optional ones fall back to the Mongoose defaults) and answer 201 with
its public representation.  A rejected create answers 500. -/
def createHandler (b : CreateBody) (db : DB) : Response × DB :=
  match firstMissing b with
  | some f =>
    ({ status := 400, body := .text ("Missing `" ++ f ++ "` in request body") }, db)
  | none =>
    match Restaurant.create (b.name.getD "") (b.borough.getD "") (b.cuisine.getD "")
        (b.grades.getD []) (b.address.getD Address.unset) db with
    | .ok (doc, db2) => ({ status := 201, body := .single (doc.apiRepr).1 }, db2)
    | .error _ => ({ status := 500, body := .message "Internal server error" }, db)

/-- A parsed update request body; `some` marks keys present in the
JSON object. -/
structure UpdateBody where
  id : Option String
  name : Option String
  borough : Option String
  cuisine : Option String
  address : Option Address
  grades : Option (List GradeEntry)
deriving DecidableEq

/-- server.js line 111. -/
def updateableFields : List String := ["name", "borough", "cuisine", "address"]

/-- The forEach over `updateableFields` (server.js lines 113-117):
collect into `toUpdate` exactly the recognized fields present in the
body; `grades` and `id` are never collected. -/
def UpdateBody.toUpdate (b : UpdateBody) : ToUpdate :=
  { name := b.name, borough := b.borough, cuisine := b.cuisine, address := b.address }

/-- The id guard of the put handler (server.js line 99):
`req.params.id && req.body.id && req.params.id === req.body.id`, where
an absent body id and the empty string are falsy. -/
def idsMatch (pathId : String) (b : UpdateBody) : Bool :=
  (pathId != "") &&
    (match b.id with
     | some s => (s != "") && (pathId == s)
     | none => false)

/-- `PUT /restaurants/:id` (server.js lines 97-125).  On an id
mismatch a 400 is sent, but the handler does NOT return: it still
builds `toUpdate` and runs `findByIdAndUpdate`, so the store is
mutated anyway and only the already-sent 400 reaches the client.  On
matching ids the `.then` branch answers 202 with the `apiRepr` of the
document `findByIdAndUpdate` hands it (the pre-update document), and a
missing document makes `null.apiRepr()` raise into the 500 branch. -/
def updateHandler (pathId : String) (b : UpdateBody) (db : DB) : Response × DB :=
  let upd := Restaurant.findByIdAndUpdate pathId b.toUpdate db
  let lateResp : Response :=
    match upd.1 with
    | some d => { status := 202, body := .single (d.apiRepr).1 }
    | none => { status := 500, body := .message "Internal server error" }
  if idsMatch pathId b then
    (lateResp, upd.2)
  else
    ({ status := 400,
       body := .message ("Request path id (" ++ pathId ++ ") and request body id ("
         ++ jsShow b.id ++ ") must match") }, upd.2)

/-- `DELETE /restaurants/:id` (server.js lines 127-133): remove the
matching document, if any, and answer 204 with an empty body either
way. -/
def deleteHandler (i : String) (db : DB) : Response × DB :=
  let rem := Restaurant.findByIdAndRemove i db
  ({ status := 204, body := .empty }, rem.2)

/-- A response body exposes record data only through `apiRepr`
projections. -/
def bodyFromApiRepr : RespBody → Prop
  | .restaurants rs => ∀ x ∈ rs, ∃ d : Restaurant, x = (d.apiRepr).1
  | .single x => ∃ d : Restaurant, x = (d.apiRepr).1
  | .message _ => True
  | .text _ => True
  | .empty => True

theorem insertGradeDesc_perm (e : GradeEntry) (l : List GradeEntry) :
    (insertGradeDesc e l).Perm (e :: l) := by
  induction l with
  | nil => exact List.Perm.refl _
  | cons x xs ih =>
    unfold insertGradeDesc
    by_cases h : e.date < x.date
    · simp only [if_pos h]
      exact (ih.cons x).trans (List.Perm.swap e x xs)
    · simp only [if_neg h]
      exact List.Perm.refl _

theorem sortGradesDesc_perm (gs : List GradeEntry) :
    (sortGradesDesc gs).Perm gs := by
  induction gs with
  | nil => exact List.Perm.refl _
  | cons e gs ih =>
    exact (insertGradeDesc_perm e (sortGradesDesc gs)).trans (ih.cons e)

theorem mem_insertGradeDesc {x e : GradeEntry} {l : List GradeEntry} :
    x ∈ insertGradeDesc e l ↔ x = e ∨ x ∈ l := by
  simpa using (insertGradeDesc_perm e l).mem_iff

theorem insertGradeDesc_pairwise {e : GradeEntry} {l : List GradeEntry}
    (h : List.Pairwise (fun a b => b.date ≤ a.date) l) :
    List.Pairwise (fun a b => b.date ≤ a.date) (insertGradeDesc e l) := by
  induction l with
  | nil => simp [insertGradeDesc]
  | cons x xs ih =>
    rcases List.pairwise_cons.mp h with ⟨hx, hxs⟩
    unfold insertGradeDesc
    by_cases hlt : e.date < x.date
    · simp only [if_pos hlt]
      refine List.pairwise_cons.mpr ⟨?_, ih hxs⟩
      intro y hy
      rcases mem_insertGradeDesc.mp hy with rfl | hy2
      · exact le_of_lt hlt
      · exact hx y hy2
    · simp only [if_neg hlt]
      refine List.pairwise_cons.mpr ⟨?_, h⟩
      intro y hy
      rcases List.mem_cons.mp hy with rfl | hy2
      · exact le_of_not_lt hlt
      · exact le_trans (hx y hy2) (le_of_not_lt hlt)

theorem sortGradesDesc_pairwise (gs : List GradeEntry) :
    List.Pairwise (fun a b => b.date ≤ a.date) (sortGradesDesc gs) := by
  induction gs with
  | nil => simp [sortGradesDesc]
  | cons e gs ih => exact insertGradeDesc_pairwise ih

/-- C1: the derived `grade` equals the `grade` field of the entry in
`grades` whose `date` is maximum (whenever one entry strictly dominates
all others, as for dates D1 < D2 < D3), and for an empty `grades` the
derived `grade` is absent (`none`) rather than an error. -/
theorem grade_most_recent (r : Restaurant) :
    (r.grades = [] → (r.grade).1 = none) ∧
    (∀ e ∈ r.grades, (∀ x ∈ r.grades, x ≠ e → x.date < e.date) →
      (r.grade).1 = some e.grade) := by
  constructor
  · intro h
    simp [Restaurant.grade, h, sortGradesDesc]
  · intro e he hmax
    have hes : e ∈ sortGradesDesc r.grades :=
      ((sortGradesDesc_perm r.grades).mem_iff).mpr he
    rcases hseq : sortGradesDesc r.grades with _ | ⟨h0, t⟩
    · rw [hseq] at hes
      cases hes
    · have hgr : (r.grade).1 = some h0.grade := by
        simp [Restaurant.grade, hseq]
      have hh0 : h0 ∈ r.grades := by
        have : h0 ∈ sortGradesDesc r.grades := by
          rw [hseq]; exact List.mem_cons_self h0 t
        exact ((sortGradesDesc_perm r.grades).mem_iff).mp this
      have hpw := sortGradesDesc_pairwise r.grades
      rw [hseq] at hpw hes
      rcases List.pairwise_cons.mp hpw with ⟨hhead, _⟩
      have h0e : h0 = e := by
        by_contra hne
        have hlt : h0.date < e.date := hmax h0 hh0 hne
        rcases List.mem_cons.mp hes with rfl | het
        · exact hne rfl
        · exact absurd (lt_of_lt_of_le hlt (hhead e het)) (lt_irrefl _)
      rw [hgr, h0e]

/-- Witness for C1 at a record whose grades carry dates 1 < 2 < 3. -/
theorem grade_most_recent_witness :
    ((Restaurant.mk "1" "N" "B" "C" Address.unset
      [⟨1, "C", 10⟩, ⟨3, "A", 30⟩, ⟨2, "B", 20⟩]).grade).1 = some "A" :=
  (grade_most_recent _).2 ⟨3, "A", 30⟩ (by decide) (by decide)

/-- C2: `apiRepr` produces exactly the object with fields id, name,
cuisine, borough, grade, address, where `address` is the derived
`addressString` and `grade` the derived most-recent grade.  The
`ApiRepr` type carries no `grades` array and no structured address, and
every record datum any of the five handlers puts in a response body is
an `apiRepr` projection. -/
theorem apiRepr_public_shape :
    (∀ r : Restaurant, (r.apiRepr).1 =
      { id := r._id, name := r.name, cuisine := r.cuisine, borough := r.borough,
        grade := (r.grade).1, address := r.addressString }) ∧
    (∀ q db, bodyFromApiRepr ((listHandler q db).1).body) ∧
    (∀ i db, bodyFromApiRepr ((getByIdHandler i db).1).body) ∧
    (∀ b db, bodyFromApiRepr ((createHandler b db).1).body) ∧
    (∀ p b db, bodyFromApiRepr ((updateHandler p b db).1).body) ∧
    (∀ i db, bodyFromApiRepr ((deleteHandler i db).1).body) := by
  refine ⟨fun r => rfl, ?_, ?_, ?_, ?_, ?_⟩
  · intro q db
    simp only [listHandler, bodyFromApiRepr]
    intro x hx
    rcases List.mem_map.mp hx with ⟨d, _, rfl⟩
    exact ⟨d, rfl⟩
  · intro i db
    rcases hf : Restaurant.findById i db with _ | d
    · simp [getByIdHandler, hf, bodyFromApiRepr]
    · simp only [getByIdHandler, hf, bodyFromApiRepr]
      exact ⟨d, rfl⟩
  · intro b db
    rcases hm : firstMissing b with _ | f
    · rcases hc : Restaurant.create (b.name.getD "") (b.borough.getD "")
        (b.cuisine.getD "") (b.grades.getD []) (b.address.getD Address.unset) db with e | pr
      · simp [createHandler, hm, hc, bodyFromApiRepr]
      · obtain ⟨doc, db2⟩ := pr
        simp only [createHandler, hm, hc, bodyFromApiRepr]
        exact ⟨doc, rfl⟩
    · simp [createHandler, hm, bodyFromApiRepr]
  · intro p b db
    rcases hu : (Restaurant.findByIdAndUpdate p b.toUpdate db).1 with _ | d
    · rcases him : idsMatch p b <;>
        simp [updateHandler, him, hu, bodyFromApiRepr]
    · rcases him : idsMatch p b
      · simp [updateHandler, him, hu, bodyFromApiRepr]
      · simp only [updateHandler, him, hu, bodyFromApiRepr, if_true]
        exact ⟨d, rfl⟩
  · intro i db
    simp [deleteHandler, bodyFromApiRepr]

/-- Witness for C2 at a concrete record. -/
theorem apiRepr_public_shape_witness :
    ((Restaurant.mk "1" "N" "B" "C" Address.unset []).apiRepr).1 =
      { id := "1", name := "N", cuisine := "C", borough := "B",
        grade := none, address := "undefined undefined" } :=
  (apiRepr_public_shape.1 (Restaurant.mk "1" "N" "B" "C" Address.unset [])).trans
    (by decide)

/-- C10: running `apiRepr` (hence the `grade` getter) sorts the
in-memory `grades` array of the document in place into descending date
order: the document coming out of the projection carries a permutation
of its original `grades`, sorted descending by date, and on a concrete
record whose grades are not already in that order the sequence differs
from the original.  Every handler that projects a fetched document
through `apiRepr` therefore works on a document whose grades array has
been reordered. -/
theorem apiRepr_sorts_grades_in_place (r : Restaurant) :
    ((r.apiRepr).2).grades = sortGradesDesc r.grades ∧
    (((r.apiRepr).2).grades).Perm r.grades ∧
    List.Pairwise (fun a b => b.date ≤ a.date) ((r.apiRepr).2).grades ∧
    ((Restaurant.mk "1" "N" "B" "C" Address.unset
        [⟨1, "Z", 10⟩, ⟨2, "A", 20⟩]).apiRepr).2.grades ≠
      (Restaurant.mk "1" "N" "B" "C" Address.unset
        [⟨1, "Z", 10⟩, ⟨2, "A", 20⟩]).grades :=
  ⟨rfl, sortGradesDesc_perm r.grades, sortGradesDesc_pairwise r.grades, by decide⟩

/-- C3 counterexample: a body carrying all three required keys with an
empty-string `name` passes the handler validation, yet the store
rejects the required empty string, so the response is 500 and nothing
is persisted — not the claimed 201 with a persisted record. -/
theorem create_all_keys_present_not_201 :
    (CreateBody.mk (some "") (some "B") (some "C") none none).name.isSome = true ∧
    (CreateBody.mk (some "") (some "B") (some "C") none none).borough.isSome = true ∧
    (CreateBody.mk (some "") (some "B") (some "C") none none).cuisine.isSome = true ∧
    (createHandler (CreateBody.mk (some "") (some "B") (some "C") none none)
        (DB.mk [] 0)).1 =
      { status := 500, body := .message "Internal server error" } ∧
    (createHandler (CreateBody.mk (some "") (some "B") (some "C") none none)
        (DB.mk [] 0)).2 = DB.mk [] 0 := by
  decide

/-- C3 amended: a create body missing one of the keys name, borough,
cuisine (presence check only) gets HTTP 400 with a plain-text message
naming the first missing field in the fixed order name, borough,
cuisine, stopping at the first failure, and persists nothing; when all
three keys are present with nonempty values the handler persists a
record built from name, borough, cuisine, grades, address and answers
201 with its public representation; a present but empty-string value
passes the presence check but is rejected by the store, yielding 500
and persisting nothing. -/
theorem create_validation (b : CreateBody) (db : DB) :
    (firstMissing b =
      (if b.name.isNone then some "name"
       else if b.borough.isNone then some "borough"
       else if b.cuisine.isNone then some "cuisine" else none)) ∧
    (∀ f, firstMissing b = some f →
      createHandler b db =
        ({ status := 400, body := .text ("Missing `" ++ f ++ "` in request body") },
         db)) ∧
    (∀ n bo c, b.name = some n → b.borough = some bo → b.cuisine = some c →
      n ≠ "" → bo ≠ "" → c ≠ "" →
      createHandler b db =
        ({ status := 201,
           body := .single ((Restaurant.mk db.freshId n bo c
             (b.address.getD Address.unset) (b.grades.getD [])).apiRepr).1 },
         { docs := db.docs ++ [Restaurant.mk db.freshId n bo c
             (b.address.getD Address.unset) (b.grades.getD [])],
           nextId := db.nextId + 1 })) ∧
    (∀ n bo c, b.name = some n → b.borough = some bo → b.cuisine = some c →
      (n = "" ∨ bo = "" ∨ c = "") →
      createHandler b db =
        ({ status := 500, body := .message "Internal server error" }, db)) := by
  refine ⟨?_, ?_, ?_, ?_⟩
  · rcases b with ⟨_ | n, _ | bo, _ | c, g, a⟩ <;>
      simp [firstMissing, requiredFields, CreateBody.hasField]
  · intro f hf
    simp [createHandler, hf]
  · intro n bo c hn hb hc hn2 hb2 hc2
    have hm : firstMissing b = none := by
      simp [firstMissing, requiredFields, CreateBody.hasField, hn, hb, hc]
    simp [createHandler, hm, hn, hb, hc, Restaurant.create, hn2, hb2, hc2]
  · intro n bo c hn hb hc hor
    have hm : firstMissing b = none := by
      simp [firstMissing, requiredFields, CreateBody.hasField, hn, hb, hc]
    rcases hor with h0 | h0 | h0
    · simp [createHandler, hm, hn, hb, hc, Restaurant.create, h0]
    · by_cases hn0 : n = "" <;>
        simp [createHandler, hm, hn, hb, hc, Restaurant.create, h0, hn0]
    · by_cases hn0 : n = "" <;> by_cases hb0 : bo = "" <;>
        simp [createHandler, hm, hn, hb, hc, Restaurant.create, h0, hn0, hb0]

/-- Witness for C3 amended: a missing `name` gets the 400 naming it,
and a fully valid body gets 201 with its projection persisted. -/
theorem create_validation_witness :
    createHandler (CreateBody.mk none (some "B") none none none) (DB.mk [] 0) =
      ({ status := 400, body := .text "Missing `name` in request body" },
       DB.mk [] 0) ∧
    createHandler (CreateBody.mk (some "A") (some "B") (some "C") none none)
        (DB.mk [] 0) =
      ({ status := 201,
         body := .single (ApiRepr.mk "0" "A" "C" "B" none "undefined undefined") },
       DB.mk [Restaurant.mk "0" "A" "B" "C" Address.unset []] 1) := by
  constructor
  · exact (create_validation (CreateBody.mk none (some "B") none none none)
      (DB.mk [] 0)).2.1 "name" (by decide)
  · exact ((create_validation (CreateBody.mk (some "A") (some "B") (some "C") none none)
      (DB.mk [] 0)).2.2.1 "A" "B" "C" rfl rfl rfl (by decide) (by decide)
      (by decide)).trans (by decide)

/-- C4: the put handler answers 400 on an id mismatch but, lacking a
return, still runs the update: at path id "1", body id "2" with a new
name, the client sees status 400 while the stored document has been
renamed — the code mutates the store where the claim (and §9 of the
spec) requires no mutation. -/
theorem update_mismatch_sends_400_but_mutates :
    (updateHandler "1"
        (UpdateBody.mk (some "2") (some "New") none none none none)
        (DB.mk [Restaurant.mk "1" "Old" "B" "C" Address.unset []] 2)).1.status
      = 400 ∧
    (updateHandler "1"
        (UpdateBody.mk (some "2") (some "New") none none none none)
        (DB.mk [Restaurant.mk "1" "Old" "B" "C" Address.unset []] 2)).2
      = DB.mk [Restaurant.mk "1" "New" "B" "C" Address.unset []] 2 ∧
    DB.mk [Restaurant.mk "1" "New" "B" "C" Address.unset []] 2 ≠
      DB.mk [Restaurant.mk "1" "Old" "B" "C" Address.unset []] 2 := by
  decide

/-- C5: a get-by-id request whose id matches no stored document makes
the handler project a missing value (`null.apiRepr()` raises), and the
catch branch answers 500 with the generic message, not a distinct
not-found status. -/
theorem get_missing_yields_500 (i : String) (db : DB)
    (h : Restaurant.findById i db = none) :
    getByIdHandler i db =
      ({ status := 500, body := .message "Internal server error" }, db) := by
  simp [getByIdHandler, h]

/-- Witness for C5 on an empty store. -/
theorem get_missing_yields_500_witness :
    getByIdHandler "9" (DB.mk [] 0) =
      ({ status := 500, body := .message "Internal server error" }, DB.mk [] 0) :=
  get_missing_yields_500 "9" (DB.mk [] 0) (by decide)

theorem find_matching_after_set (u : ToUpdate) (i : String) (l : List Restaurant) :
    (l.map (fun x => if x._id == i then applySet u x else x)).find?
        (fun d => d._id == i) =
      (l.find? (fun d => d._id == i)).map (applySet u) := by
  induction l with
  | nil => rfl
  | cons x xs ih =>
    by_cases hx : x._id == i
    · simp [List.find?, hx, applySet]
    · simp only [List.map_cons, if_neg hx, List.find?]
      rw [Bool.of_not_eq_true hx]
      exact ih

/-- C6 counterexample: a successful update (matching ids, document
found) answers 202, but the body carries the pre-update field values:
updating the name from "Old" to "New" answers with name "Old" while the
store already holds "New". -/
theorem update_response_shows_preupdate_values :
    (updateHandler "1" (UpdateBody.mk (some "1") (some "New") none none none none)
        (DB.mk [Restaurant.mk "1" "Old" "B" "C" Address.unset []] 2)).1 =
      { status := 202,
        body := .single (ApiRepr.mk "1" "Old" "C" "B" none "undefined undefined") } ∧
    (updateHandler "1" (UpdateBody.mk (some "1") (some "New") none none none none)
        (DB.mk [Restaurant.mk "1" "Old" "B" "C" Address.unset []] 2)).2 =
      DB.mk [Restaurant.mk "1" "New" "B" "C" Address.unset []] 2 ∧
    (ApiRepr.mk "1" "Old" "C" "B" none "undefined undefined").name ≠ "New" := by
  decide

/-- C6 amended: a successful update request (matching ids, document
found) answers HTTP 202 whose body is the public representation of the
document as fetched BEFORE the partial update was applied
(`findByIdAndUpdate` defaults to handing back the pre-update document),
while the store itself holds the updated field values. -/
theorem update_success_returns_preupdate_repr (p : String) (b : UpdateBody)
    (db : DB) (d : Restaurant)
    (hid : idsMatch p b = true) (hfound : Restaurant.findById p db = some d) :
    updateHandler p b db =
      ({ status := 202, body := .single (d.apiRepr).1 },
       { docs := db.docs.map
           (fun x => if x._id == p then applySet b.toUpdate x else x),
         nextId := db.nextId }) := by
  have hf : db.docs.find? (fun x => x._id == p) = some d := hfound
  simp [updateHandler, Restaurant.findByIdAndUpdate, hf, hid]

/-- Witness for C6 amended at a concrete store. -/
theorem update_success_returns_preupdate_repr_witness :
    updateHandler "1" (UpdateBody.mk (some "1") (some "New") none none none none)
        (DB.mk [Restaurant.mk "1" "Old" "B" "C" Address.unset []] 2) =
      ({ status := 202,
         body := .single ((Restaurant.mk "1" "Old" "B" "C" Address.unset
           []).apiRepr).1 },
       DB.mk [Restaurant.mk "1" "New" "B" "C" Address.unset []] 2) := by
  have h := update_success_returns_preupdate_repr "1"
    (UpdateBody.mk (some "1") (some "New") none none none none)
    (DB.mk [Restaurant.mk "1" "Old" "B" "C" Address.unset []] 2)
    (Restaurant.mk "1" "Old" "B" "C" Address.unset [])
    (by decide) (by decide)
  exact h.trans (by decide)

theorem buildFilter_foldl_filter (acc : List (String × String))
    (q : List (String × String)) :
    q.foldl (fun f p => if queryableFields.contains p.1 then f ++ [p] else f) acc =
      (q.filter (fun p => queryableFields.contains p.1)).foldl
        (fun f p => if queryableFields.contains p.1 then f ++ [p] else f) acc := by
  induction q generalizing acc with
  | nil => rfl
  | cons p q ih =>
    by_cases h : queryableFields.contains p.1
    · simp only [List.foldl_cons, List.filter_cons, h, if_pos, if_true]
      exact ih (acc ++ [p])
    · simp only [List.foldl_cons, List.filter_cons, Bool.of_not_eq_true h,
        Bool.false_eq_true, if_false, if_neg h]
      exact ih acc

/-- C7: the list handler builds its exact-match filter only from the
recognized query parameters cuisine and borough (any other parameter is
silently ignored and the response is unchanged by dropping it), answers
HTTP 200 with the restaurants key holding the matching documents capped
at 10 and projected through `apiRepr`, and every returned item comes
from a stored document matching the filter exactly. -/
theorem list_handler_contract (q : List (String × String)) (db : DB) :
    listHandler q db =
      ({ status := 200,
         body := .restaurants
           (((db.docs.filter (matchesFilter (buildFilter q))).take 10).map
             (fun d => (d.apiRepr).1)) }, db) ∧
    (((db.docs.filter (matchesFilter (buildFilter q))).take 10).map
      (fun d => (d.apiRepr).1)).length ≤ 10 ∧
    buildFilter q = buildFilter (q.filter (fun p => queryableFields.contains p.1)) ∧
    ∀ x ∈ (db.docs.filter (matchesFilter (buildFilter q))).take 10,
      x ∈ db.docs ∧ matchesFilter (buildFilter q) x = true := by
  refine ⟨rfl, ?_, ?_, ?_⟩
  · simp [List.length_take]
  · exact buildFilter_foldl_filter [] q
  · intro x hx
    have hx2 := List.mem_of_mem_take hx
    exact ⟨(List.mem_filter.mp hx2).1, (List.mem_filter.mp hx2).2⟩

/-- Witness for C7: an unrecognized parameter is dropped and the single
matching document is returned, matching the filter exactly. -/
theorem list_handler_contract_witness :
    listHandler [("cuisine", "Italian"), ("junk", "z")]
        (DB.mk [Restaurant.mk "1" "N1" "Bronx" "Italian" Address.unset [],
                Restaurant.mk "2" "N2" "Queens" "Thai" Address.unset []] 3) =
      ({ status := 200,
         body := .restaurants
           [ApiRepr.mk "1" "N1" "Italian" "Bronx" none "undefined undefined"] },
       DB.mk [Restaurant.mk "1" "N1" "Bronx" "Italian" Address.unset [],
              Restaurant.mk "2" "N2" "Queens" "Thai" Address.unset []] 3) ∧
    (Restaurant.mk "1" "N1" "Bronx" "Italian" Address.unset [] ∈
        (DB.mk [Restaurant.mk "1" "N1" "Bronx" "Italian" Address.unset [],
                Restaurant.mk "2" "N2" "Queens" "Thai" Address.unset []] 3).docs ∧
      matchesFilter
        (buildFilter [("cuisine", "Italian"), ("junk", "z")])
        (Restaurant.mk "1" "N1" "Bronx" "Italian" Address.unset []) = true) := by
  have h := list_handler_contract [("cuisine", "Italian"), ("junk", "z")]
    (DB.mk [Restaurant.mk "1" "N1" "Bronx" "Italian" Address.unset [],
            Restaurant.mk "2" "N2" "Queens" "Thai" Address.unset []] 3)
  exact ⟨h.1.trans (by decide),
    h.2.2.2 (Restaurant.mk "1" "N1" "Bronx" "Italian" Address.unset []) (by decide)⟩

/-- C8: the applied partial-update set holds exactly those of the four
fields name, borough, cuisine, address present in the body, and the
stored document after a successful update keeps every other field
untouched: its id and its grades are those of the pre-update document,
and each updatable field is the body value when the key is present and
the old value otherwise. -/
theorem update_partial_frame (p : String) (b : UpdateBody) (db : DB)
    (d : Restaurant) (hfound : Restaurant.findById p db = some d) :
    Restaurant.findById p ((updateHandler p b db).2) =
      some (applySet b.toUpdate d) ∧
    (applySet b.toUpdate d)._id = d._id ∧
    (applySet b.toUpdate d).grades = d.grades ∧
    (applySet b.toUpdate d).name = b.name.getD d.name ∧
    (applySet b.toUpdate d).borough = b.borough.getD d.borough ∧
    (applySet b.toUpdate d).cuisine = b.cuisine.getD d.cuisine ∧
    (applySet b.toUpdate d).address = b.address.getD d.address := by
  have hf : db.docs.find? (fun x => x._id == p) = some d := hfound
  have hsnd : (updateHandler p b db).2 =
      { docs := db.docs.map
          (fun x => if x._id == p then applySet b.toUpdate x else x),
        nextId := db.nextId } := by
    rcases him : idsMatch p b <;>
      simp [updateHandler, Restaurant.findByIdAndUpdate, hf, him]
  refine ⟨?_, rfl, rfl, rfl, rfl, rfl, rfl⟩
  rw [hsnd]
  show (db.docs.map
      (fun x => if x._id == p then applySet b.toUpdate x else x)).find?
      (fun x => x._id == p) = some (applySet b.toUpdate d)
  rw [find_matching_after_set, hf]
  rfl

/-- Witness for C8: an update carrying only a new name leaves id,
grades, borough, cuisine and address of the stored document unchanged. -/
theorem update_partial_frame_witness :
    Restaurant.findById "1"
        ((updateHandler "1"
          (UpdateBody.mk (some "1") (some "New") none none none
            (some [GradeEntry.mk 5 "A" 50]))
          (DB.mk [Restaurant.mk "1" "Old" "B" "C" Address.unset
            [GradeEntry.mk 1 "Z" 10]] 2)).2) =
      some (applySet
        (UpdateBody.mk (some "1") (some "New") none none none
          (some [GradeEntry.mk 5 "A" 50])).toUpdate
        (Restaurant.mk "1" "Old" "B" "C" Address.unset [GradeEntry.mk 1 "Z" 10])) :=
  (update_partial_frame "1"
    (UpdateBody.mk (some "1") (some "New") none none none
      (some [GradeEntry.mk 5 "A" 50]))
    (DB.mk [Restaurant.mk "1" "Old" "B" "C" Address.unset
      [GradeEntry.mk 1 "Z" 10]] 2)
    (Restaurant.mk "1" "Old" "B" "C" Address.unset [GradeEntry.mk 1 "Z" 10])
    (by decide)).1

/-- C9 counterexample: a record created via POST with name "A", borough
"B", cuisine "C" and no address gets 201, but the subsequent GET
returns address "undefined undefined" — the template literal renders
the two unset paths as the string "undefined" — not the claimed empty
string. -/
theorem addressString_no_address_counterexample :
    (createHandler (CreateBody.mk (some "A") (some "B") (some "C") none none)
        (DB.mk [] 0)).1.status = 201 ∧
    (getByIdHandler "0"
        (createHandler (CreateBody.mk (some "A") (some "B") (some "C") none none)
          (DB.mk [] 0)).2).1 =
      { status := 200,
        body := .single (ApiRepr.mk "0" "A" "C" "B" none "undefined undefined") } ∧
    ("undefined undefined" : String) ≠ "" := by
  decide

/-- C9 amended: the derived addressString is the trimmed,
space-separated concatenation of the rendered `building` and `street`
paths, where a path that is present renders as its value and an unset
path renders as the string "undefined"; hence for a record with both
paths set it is the trimmed concatenation of the two values, a record
whose address was never set yields "undefined undefined", and the POST
of name "A", borough "B", cuisine "C" with no address followed by a GET
returns the representation with address "undefined undefined". -/
theorem addressString_amended (r : Restaurant) :
    (∀ b s, r.address.building = some b → r.address.street = some s →
      r.addressString = jsTrim (b ++ " " ++ s)) ∧
    (r.address.building = none → r.address.street = none →
      r.addressString = "undefined undefined") ∧
    (getByIdHandler "0"
        (createHandler (CreateBody.mk (some "A") (some "B") (some "C") none none)
          (DB.mk [] 0)).2).1 =
      { status := 200,
        body := .single (ApiRepr.mk "0" "A" "C" "B" none "undefined undefined") } := by
  refine ⟨?_, ?_, by decide⟩
  · intro b s hb hs
    simp [Restaurant.addressString, hb, hs, jsShow]
  · intro hb hs
    simp only [Restaurant.addressString, hb, hs, jsShow]
    decide

/-- Witness for C9 amended at a record with building "12" and street
"Main St". -/
theorem addressString_amended_witness :
    (Restaurant.mk "1" "N" "B" "C"
        (Address.mk (some "12") [] (some "Main St") none) []).addressString =
      jsTrim ("12" ++ " " ++ "Main St") :=
  (addressString_amended (Restaurant.mk "1" "N" "B" "C"
    (Address.mk (some "12") [] (some "Main St") none) [])).1 "12" "Main St" rfl rfl
